import Mathlib

/-!
Verification of the lifecycle-coordinator shim in
`pkg/scheduler/multischeduler/generic.go` (tensile-kube).

The Go file wires an external scheduler library: `NewScheduler` builds a
handle from a configuration, `getRecorderFactory` selects an event-recorder
factory by a discovery probe, and `Scheduler.Run` starts informers, waits for
cache sync and blocks on the stop channel.

The shallow embedding below follows the source line by line.  External
collaborators (client-go / kube-scheduler library calls) are modelled by
their documented contracts, parameterised by oracle inputs (probe outcome,
external constructor error, event timing).  Time is `Option Nat`, with `none`
meaning "the event never occurs".
-/

namespace Multischeduler

/-- Time at which an event occurs; `none` means it never occurs. -/
abbrev ETime := Option Nat

/-- Later of two event times (`none` = never dominates). -/
def etMax : ETime → ETime → ETime
  | none, _ => none
  | _, none => none
  | some a, some b => some (max a b)

/-- Earlier of two event times. -/
def etMin : ETime → ETime → ETime
  | none, b => b
  | a, none => a
  | some a, some b => some (min a b)

/-- Event-time order: `a` happens no later than `b` (`none` = never). -/
def etLe : ETime → ETime → Bool
  | _, none => true
  | none, some _ => false
  | some a, some b => a ≤ b

/-- An event broadcaster value.  `fromCaller` is a broadcaster already stored
in the configuration by the caller; `eventsNew` is the broadcaster built by
`events.NewBroadcaster(&events.EventSinkImpl{Interface: cc.EventClient.Events("")})`
inside `getRecorderFactory`, identified by the (necessarily non-nil) event
client it wraps — with a nil event client that expression panics before any
broadcaster exists. -/
inductive Broadcaster where
  | fromCaller (id : Nat)
  | eventsNew (eventClient : Nat)
deriving DecidableEq

/-- The scheduler configuration (`schedulerappconfig.Config`), restricted to
the fields the shim reads.  Handles to external objects (client, event
client, core broadcaster) are `Option Nat`: `none` models a nil Go value,
`some id` a concrete object identity.  The component-config scalars are kept
so that the argument list passed to `scheduler.New` can be stated.  The last
five fields are the state `cc.Complete()` touches: the `Name` fields of the
insecure serving and metrics serving infos (`none` when the info pointer is
nil), the loopback client config's bearer token (`none` when the config is
nil or the token empty), and whether the loopback authenticator/authorizer
have been appended to the Authentication/Authorization sub-configs. -/
structure Config where
  client : Option Nat
  informerFactoryPresent : Bool
  podInformerPresent : Bool
  broadcaster : Option Broadcaster
  eventClient : Option Nat
  coreBroadcaster : Option Nat
  profiles : List String
  algorithmSource : String
  disablePreemption : Bool
  percentageOfNodesToScore : Nat
  bindTimeoutSeconds : Nat
  podMaxBackoffSeconds : Nat
  podInitialBackoffSeconds : Nat
  extenders : List String
  insecureServingName : Option String
  insecureMetricsServingName : Option String
  loopbackBearerToken : Option String
  authnLoopbackAppended : Bool
  authzLoopbackAppended : Bool
deriving DecidableEq

/-- Modelled from the spec: the external completed-config constructor
`cc.Complete()` of the scheduler app config, documented to fill in required
fields and mutate its receiver.  It names the insecure serving info
`healthz` and the insecure metrics serving info `metrics` when those structs
are present, and runs `AuthorizeClientBearerToken` on the loopback client
config and the Authentication/Authorization sub-configs, which appends the
loopback authenticator and authorizer when a loopback bearer token is
present.  All other fields are untouched, and the completed view shares the
receiver, so later writes through it (see `getRecorderFactory`) hit the same
value. -/
def Complete (cc : Config) : Config :=
  { cc with
    insecureServingName := cc.insecureServingName.map (fun _ => "healthz")
    insecureMetricsServingName :=
      cc.insecureMetricsServingName.map (fun _ => "metrics")
    authnLoopbackAppended :=
      cc.authnLoopbackAppended || cc.loopbackBearerToken.isSome
    authzLoopbackAppended :=
      cc.authzLoopbackAppended || cc.loopbackBearerToken.isSome }

/-- An event recorder produced by the selected factory.  `modern b c` is the
recorder `profile.NewRecorderFactory(b)` yields for component `c`;
`adapter core c` is `record.NewEventRecorderAdapter(core.NewRecorder(scheme,
v1.EventSource{Component: c}))`, the legacy recorder wrapped in the
compatibility adapter. -/
inductive EventRecorder where
  | modern (b : Broadcaster) (component : String)
  | adapter (coreBroadcaster : Option Nat) (component : String)
deriving DecidableEq

/-- Embedding of `getRecorderFactory` from the source.  `probeOk` is the oracle outcome of
the discovery probe `cc.Client.Discovery().ServerResourcesForGroupVersion(
eventsv1beta1 gv)`: `true` when the call returns no error.  The Go function
receives `*CompletedConfig`, which shares the `Config` value local to
`NewScheduler`; on the probe-success path it first evaluates
`cc.EventClient.Events("")` — when the event client is a nil interface this
dereference panics, before `cc.Broadcaster` is ever assigned; the panic is
modelled as `none`.  With a present event client it assigns
`cc.Broadcaster`, so the embedding returns the factory together with the
updated configuration. -/
def getRecorderFactory (probeOk : Bool) (cc : Config) :
    Option ((String → EventRecorder) × Config) :=
  if probeOk then
    match cc.eventClient with
    | none => none
    | some ec =>
      some (fun name => EventRecorder.modern (Broadcaster.eventsNew ec) name,
        { cc with broadcaster := some (Broadcaster.eventsNew ec) })
  else
    some (fun name => EventRecorder.adapter cc.coreBroadcaster name, cc)

/-- The argument list `NewScheduler` passes to the external constructor
`scheduler.New`, field by field in source order. -/
structure SchedulerNewArgs where
  client : Option Nat
  informerFactoryPresent : Bool
  podInformerPresent : Bool
  recorderFactory : String → EventRecorder
  profiles : List String
  algorithmSource : String
  disablePreemption : Bool
  percentageOfNodesToScore : Nat
  bindTimeoutSeconds : Nat
  outOfTreeRegistry : List String
  podMaxBackoffSeconds : Nat
  podInitialBackoffSeconds : Nat
  extenders : List String

/-- The handle built by `NewScheduler`: it stores the (possibly updated)
configuration; the embedded external `*scheduler.Scheduler` is opaque and
carries no further observable state for the shim. -/
structure Scheduler where
  Config : Config
deriving DecidableEq

/-- Result of a non-panicking run of `NewScheduler`: the arguments handed to
the external constructor, the state of the local configuration value after
`Complete` and `getRecorderFactory` ran (the Go local `cc`, mutated through
the completed-config pointer), and the returned `(handle, error)` pair. -/
structure NewSchedulerResult where
  args : SchedulerNewArgs
  ccAfter : Config
  result : Except String Scheduler

/-- Embedding of `NewScheduler` from the source.  `probeOk` is the discovery-probe oracle
(see `getRecorderFactory`); `schedulerNewErr` is the oracle outcome of the
external call `scheduler.New(...)`: `none` when it succeeds, `some e` when it
fails with error `e`.  The source creates an empty out-of-tree registry,
completes the configuration (`cc.Complete()` mutates the local `cc` and
wraps a pointer to it), resolves the recorder factory (whose nil-event-client
panic aborts the whole construction: modelled as `none`), calls
`scheduler.New` on the mutated `cc` and either propagates its error or
returns the handle `&Scheduler{Config: cc, ...}`. -/
def NewScheduler (probeOk : Bool) (schedulerNewErr : Option String)
    (cc : Config) : Option NewSchedulerResult :=
  let outOfTreeRegistry : List String := []
  match getRecorderFactory probeOk (Complete cc) with
  | none => none
  | some rfcc =>
    let recordFactory := rfcc.1
    let cc2 := rfcc.2
    let args : SchedulerNewArgs :=
      { client := cc2.client
        informerFactoryPresent := cc2.informerFactoryPresent
        podInformerPresent := cc2.podInformerPresent
        recorderFactory := recordFactory
        profiles := cc2.profiles
        algorithmSource := cc2.algorithmSource
        disablePreemption := cc2.disablePreemption
        percentageOfNodesToScore := cc2.percentageOfNodesToScore
        bindTimeoutSeconds := cc2.bindTimeoutSeconds
        outOfTreeRegistry := outOfTreeRegistry
        podMaxBackoffSeconds := cc2.podMaxBackoffSeconds
        podInitialBackoffSeconds := cc2.podInitialBackoffSeconds
        extenders := cc2.extenders }
    match schedulerNewErr with
    | some e => some { args := args, ccAfter := cc2, result := Except.error e }
    | none =>
      some { args := args, ccAfter := cc2, result := Except.ok { Config := cc2 } }

/-- Observable actions `Run` performs, in program order. -/
inductive Action where
  | startRecordingToSink
  | goPodInformerRun
  | informerFactoryStart
  | informerFactoryWaitForCacheSync
  | cacheWaitForCacheSync
  | recvStopCh
deriving DecidableEq

/-- Environment of one `Run` execution: when the stop channel closes
(`none` = never), when the caller's context becomes done, and the sync times
of the data feeds tracked by the informer factory. -/
structure RunEnv where
  stopTime : ETime
  ctxDoneTime : ETime
  factoryFeedSyncs : List ETime
deriving DecidableEq

/-- Outcome of a cache-sync wait: whether it reported success and when it
returned (`none` = it blocks forever). -/
structure WaitResult where
  ok : Bool
  endTime : ETime
deriving DecidableEq

/-- Modelled from the spec: the external cache-sync wait
(`cache.WaitForCacheSync` / `InformerFactory.WaitForCacheSync`, spec §4.2 and
§6).  Called at time `now`, it blocks until every given sync predicate holds
or the signal fires, and reports success exactly when the predicates were
satisfied.  The predicates are checked on entry before the signal is
consulted (client-go polls the condition first), so with an empty predicate
list the wait returns `true` immediately. -/
def waitForCacheSync (syncs : List ETime) (signal : ETime) (now : Nat) :
    WaitResult :=
  if etLe (syncs.foldr etMax (some now)) (some now) then
    { ok := true, endTime := some now }
  else if etLe (syncs.foldr etMax (some now)) signal then
    { ok := true, endTime := syncs.foldr etMax (some now) }
  else
    { ok := false, endTime := etMin (syncs.foldr etMax (some now)) signal }

/-- Outcome of `Run`: the trace of actions it performed, the time it
returned (`none` = it blocks forever) and the error it returned (`none` =
nil error; meaningful only when `returnTime` is `some`). -/
structure RunOutcome where
  trace : List Action
  returnTime : ETime
  error : Option String
deriving DecidableEq

/-- Embedding of `Scheduler.Run` from the source, step by step:
1. if `sched.Config.Broadcaster != nil && sched.Config.EventClient != nil`,
   call `StartRecordingToSink(sched.StopCh)`;
2. `go sched.Config.PodInformer.Informer().Run(sched.StopCh)`;
3. `sched.Config.InformerFactory.Start(sched.StopCh)`;
4. `sched.Config.InformerFactory.WaitForCacheSync(sched.StopCh)` — keyed on
   the stop channel, return value discarded;
5. `cache.WaitForCacheSync(ctx.Done())` — no sync predicates are passed
   (empty list), gated on the context;
6. on `false`, return the error "failed to wait cache sync";
7. otherwise receive from `sched.StopCh` and return nil. -/
def Scheduler.Run (sched : Scheduler) (env : RunEnv) : RunOutcome :=
  let recActs : List Action :=
    if sched.Config.broadcaster.isSome && sched.Config.eventClient.isSome then
      [Action.startRecordingToSink]
    else []
  let launched := recActs ++
    [Action.goPodInformerRun, Action.informerFactoryStart,
     Action.informerFactoryWaitForCacheSync]
  let w1 := waitForCacheSync env.factoryFeedSyncs env.stopTime 0
  match w1.endTime with
  | none => { trace := launched, returnTime := none, error := none }
  | some t1 =>
    let w2 := waitForCacheSync [] env.ctxDoneTime t1
    let trace2 := launched ++ [Action.cacheWaitForCacheSync]
    if w2.ok then
      match w2.endTime, env.stopTime with
      | none, _ =>
        { trace := trace2 ++ [Action.recvStopCh], returnTime := none,
          error := none }
      | some _, none =>
        { trace := trace2 ++ [Action.recvStopCh], returnTime := none,
          error := none }
      | some t2, some s =>
        { trace := trace2 ++ [Action.recvStopCh],
          returnTime := some (max t2 s), error := none }
    else
      { trace := trace2, returnTime := w2.endTime,
        error := some "failed to wait cache sync" }

/-- Time at which every factory-tracked feed of the environment has synced
(`none` = some feed never syncs; `some 0` when no feed is tracked). -/
def allFeedsSyncedAt (env : RunEnv) : ETime :=
  env.factoryFeedSyncs.foldr etMax (some 0)

/-- Modelled from the spec (§4.1, refinement side): a configuration is
well-formed when the required sub-configs are present — the client, the
informer factory and the pod informer.  The spec's `Start` is claimed to
reject configurations for which this is false. -/
def specWellFormed (cc : Config) : Bool :=
  cc.client.isSome && cc.informerFactoryPresent && cc.podInformerPresent

/-- Whether the construction carries a scheduler handle: it did not panic
and the external constructor succeeded. -/
def buildsHandle : Option NewSchedulerResult → Bool
  | some r =>
    match r.result with
    | Except.ok _ => true
    | Except.error _ => false
  | none => false

/-- A concrete configuration with no caller-supplied broadcaster and no event
client (so `Run` does not start event recording). -/
def cfgNoRec : Config :=
  { client := some 1
    informerFactoryPresent := true
    podInformerPresent := true
    broadcaster := none
    eventClient := none
    coreBroadcaster := some 2
    profiles := ["default-scheduler"]
    algorithmSource := "DefaultProvider"
    disablePreemption := false
    percentageOfNodesToScore := 0
    bindTimeoutSeconds := 600
    podMaxBackoffSeconds := 10
    podInitialBackoffSeconds := 1
    extenders := []
    insecureServingName := none
    insecureMetricsServingName := none
    loopbackBearerToken := none
    authnLoopbackAppended := false
    authzLoopbackAppended := false }

/-- The handle over `cfgNoRec`. -/
def schedNoRec : Scheduler := { Config := cfgNoRec }

/-- The configuration `cfgNoRec` with a present (non-nil) event client, so
the probe-success path of `getRecorderFactory` runs without panicking; its
`Complete`-relevant fields are absent, so completion changes nothing. -/
def cfgWithEventClient : Config := { cfgNoRec with eventClient := some 7 }

/-- Environment in which one tracked feed never syncs, the context is never
done and the stop channel closes at time 5. -/
def envStopBeforeSync : RunEnv :=
  { stopTime := some 5, ctxDoneTime := none, factoryFeedSyncs := [none] }

/-- Environment in which one tracked feed never syncs, the context becomes
done at time 3 and the stop channel closes at time 10. -/
def envCtxCancelled : RunEnv :=
  { stopTime := some 10, ctxDoneTime := some 3, factoryFeedSyncs := [none] }

/-- The configuration `cfgNoRec` with the pod informer missing: a
configuration that is not well-formed in the sense of the spec. -/
def cfgMissingPodInformer : Config :=
  { cfgNoRec with podInformerPresent := false }

/-- The second wait (`cache.WaitForCacheSync(ctx.Done())`) is called with no
sync predicates, so it reports success immediately, whatever the context. -/
theorem waitForCacheSync_nil (signal : ETime) (now : Nat) :
    waitForCacheSync [] signal now = { ok := true, endTime := some now } := by
  simp [waitForCacheSync, etLe]

/-- A wait entered at time 0 ends exactly when all its feeds have synced or
the signal fires, whichever happens first. -/
theorem waitForCacheSync_endTime_zero (syncs : List ETime) (signal : ETime) :
    (waitForCacheSync syncs signal 0).endTime =
      etMin (syncs.foldr etMax (some 0)) signal := by
  unfold waitForCacheSync
  cases hr : syncs.foldr etMax (some 0) with
  | none => cases signal <;> simp [etLe, etMin]
  | some r =>
    cases signal with
    | none =>
      by_cases h0 : r = 0
      · subst h0
        simp [etLe, etMin]
      · simp [etLe, etMin, h0]
    | some s =>
      rcases Nat.eq_zero_or_pos r with h | h
      · subst h
        simp [etLe, etMin, Nat.min_eq_left (Nat.zero_le s)]
      · have h1 : ¬ r ≤ 0 := by omega
        by_cases h2 : r ≤ s
        · simp [etLe, etMin, h1, h2, Nat.min_eq_left h2]
        · simp [etLe, etMin, h1, h2]

/-- The trace of every `Run` execution is: the optional recording action,
then the pod-informer launch, the factory start and the factory wait, then a
remainder drawn from the context-gated wait and the stop receive. -/
theorem run_trace_shape (sched : Scheduler) (env : RunEnv) :
    ∃ t : List Action,
      (Scheduler.Run sched env).trace =
        (if sched.Config.broadcaster.isSome && sched.Config.eventClient.isSome
          then [Action.startRecordingToSink] else []) ++
        ([Action.goPodInformerRun, Action.informerFactoryStart,
          Action.informerFactoryWaitForCacheSync] ++ t) ∧
      (t = [] ∨ t = [Action.cacheWaitForCacheSync] ∨
        t = [Action.cacheWaitForCacheSync, Action.recvStopCh]) := by
  simp only [Scheduler.Run]
  split
  · exact ⟨[], by simp, Or.inl rfl⟩
  · simp only [waitForCacheSync_nil]
    split
    · split
      · exact ⟨[Action.cacheWaitForCacheSync, Action.recvStopCh], by simp,
          Or.inr (Or.inr rfl)⟩
      · exact ⟨[Action.cacheWaitForCacheSync, Action.recvStopCh], by simp,
          Or.inr (Or.inr rfl)⟩
      · exact ⟨[Action.cacheWaitForCacheSync, Action.recvStopCh], by simp,
          Or.inr (Or.inr rfl)⟩
    · exact ⟨[Action.cacheWaitForCacheSync], by simp, Or.inr (Or.inl rfl)⟩

/-- In this embedding `Run` never returns a non-nil error: the `failed to wait cache sync`
branch is unreachable, because the context-gated wait receives no sync
predicates and therefore always reports success. -/
theorem run_error_none (sched : Scheduler) (env : RunEnv) :
    (Scheduler.Run sched env).error = none := by
  simp only [Scheduler.Run]
  split
  · rfl
  · simp only [waitForCacheSync_nil]
    split
    · split <;> rfl
    · simp_all

/-- C1: the claim fails on the code.  With one tracked feed that never syncs,
the context never done, and the stop channel closing at time 5, `Run` returns
a nil error at time 5 — before every tracked feed has synced.  The factory
wait is keyed on the stop channel and its result is discarded, and the
context-gated wait receives no sync predicates, so the sync gate never blocks
a nil return. -/
theorem C1_run_returns_nil_before_sync :
    envStopBeforeSync.factoryFeedSyncs = [none] ∧
    envStopBeforeSync.ctxDoneTime = none ∧
    (schedNoRec.Run envStopBeforeSync).error = none ∧
    (schedNoRec.Run envStopBeforeSync).returnTime = some 5 := by decide

/-- C2: counterexample.  A configuration whose pod informer is missing (not
well-formed in the spec's sense) is not rejected: `NewScheduler` performs no
validation, hands the absent pod informer straight to the external
constructor, and returns a handle when that constructor succeeds — no
`ConfigurationError` exists in this layer. -/
theorem C2_no_configuration_error :
    specWellFormed cfgMissingPodInformer = false ∧
    buildsHandle (NewScheduler false none cfgMissingPodInformer) = true ∧
    (NewScheduler false none cfgMissingPodInformer).map
      (fun r => r.args.podInformerPresent) = some false := by decide

/-- C2 amended: `NewScheduler` validates nothing — on every execution that
does not panic (any probe outcome with a present event client, or a failed
probe with any configuration at all), whether it returns a handle depends
only on the outcome of the external constructor, never on the
well-formedness of the configuration. -/
theorem C2_construction_ignores_wellformedness (probeOk : Bool)
    (schedulerNewErr : Option String) (cc : Config) (ec : Nat) :
    buildsHandle
        (NewScheduler probeOk schedulerNewErr
          { cc with eventClient := some ec }) =
      schedulerNewErr.isNone ∧
    buildsHandle (NewScheduler false schedulerNewErr cc) =
      schedulerNewErr.isNone := by
  cases probeOk <;> cases schedulerNewErr <;> exact ⟨rfl, rfl⟩

/-- C3: the claim fails on the code.  With the context done at time 3, one
tracked feed never synced and the stop channel closing at time 10, `Run` does
not return a `CacheSyncTimeoutError` at time 3: it stays blocked in the
factory wait (keyed on the stop channel) until time 10 and then returns a nil
error — the error branch is unreachable because the context-gated wait is
passed no sync predicates. -/
theorem C3_ctx_cancellation_not_reported :
    envCtxCancelled.ctxDoneTime = some 3 ∧
    envCtxCancelled.factoryFeedSyncs = [none] ∧
    envCtxCancelled.stopTime = some 10 ∧
    (schedNoRec.Run envCtxCancelled).error = none ∧
    (schedNoRec.Run envCtxCancelled).returnTime = some 10 := by decide

/-- C4: counterexample.  In an execution where no tracked feed ever syncs and
the context is never done, the waiting phase nevertheless ends — the stop
signal (closing at time 5) terminates it, and `Run` proceeds to the stop
receive and returns at time 5.  So sync completion and context-done are not
the only two terminators of the wait. -/
theorem C4_wait_ended_by_stop_signal :
    envStopBeforeSync.ctxDoneTime = none ∧
    envStopBeforeSync.factoryFeedSyncs = [none] ∧
    Action.recvStopCh ∈ (schedNoRec.Run envStopBeforeSync).trace ∧
    (schedNoRec.Run envStopBeforeSync).returnTime = some 5 := by decide

/-- C4 amended: the waiting phase ends exactly when every factory-tracked
feed has synced or the stop signal fires, whichever comes first; the
context-gated second wait tracks no feeds, completes immediately and never
produces an error. -/
theorem C4_wait_ends_on_sync_or_stop (sched : Scheduler) (env : RunEnv) :
    (Action.cacheWaitForCacheSync ∈ (Scheduler.Run sched env).trace ↔
      (etMin (allFeedsSyncedAt env) env.stopTime).isSome = true) ∧
    (Scheduler.Run sched env).error = none := by
  refine ⟨?_, run_error_none sched env⟩
  have hend : (waitForCacheSync env.factoryFeedSyncs env.stopTime 0).endTime =
      etMin (allFeedsSyncedAt env) env.stopTime :=
    waitForCacheSync_endTime_zero env.factoryFeedSyncs env.stopTime
  rcases hcase : (waitForCacheSync env.factoryFeedSyncs env.stopTime 0).endTime
    with _ | t1
  · rw [hcase] at hend
    simp only [Scheduler.Run, hcase, ← hend]
    simp only [Option.isSome_none, Bool.false_eq_true, iff_false]
    intro hmem
    rcases List.mem_append.mp hmem with h | h
    · revert h
      split <;> simp
    · simp at h
  · rw [hcase] at hend
    simp only [Scheduler.Run, hcase, waitForCacheSync_nil, ← hend]
    simp only [Option.isSome_some, iff_true]
    cases env.stopTime <;> simp

/-- C5: counterexample.  Construction does mutate the configuration value it
was handed: with a present event client, no caller-supplied broadcaster and
a successful probe, construction returns normally and the configuration
stored into the handle carries a freshly built events broadcaster, so it
differs from the configuration passed in. -/
theorem C5_broadcaster_field_mutated :
    cfgWithEventClient.broadcaster = none ∧
    (NewScheduler true none cfgWithEventClient).map
      (fun r => r.ccAfter.broadcaster) = some (some (Broadcaster.eventsNew 7)) ∧
    (NewScheduler true none cfgWithEventClient).map NewSchedulerResult.ccAfter
      ≠ some cfgWithEventClient := by decide

/-- C5 amended: construction mutates the handed configuration in two steps —
`cc.Complete()` completes its receiver (naming the insecure serving and
metrics endpoints and authorizing the loopback bearer token), and, exactly
when the events-API probe succeeds, `getRecorderFactory` additionally
replaces the Broadcaster field with a newly built events broadcaster over
the event client; no other field changes.  With a successful probe and a nil
event client the construction panics before any broadcaster assignment. -/
theorem C5_complete_then_broadcaster_mutated (probeOk : Bool)
    (schedulerNewErr : Option String) (cc : Config) (ec : Nat) :
    (NewScheduler probeOk schedulerNewErr
        { cc with eventClient := some ec }).map NewSchedulerResult.ccAfter =
      some (if probeOk then
          { Complete { cc with eventClient := some ec } with
              broadcaster := some (Broadcaster.eventsNew ec) }
        else Complete { cc with eventClient := some ec }) ∧
    (NewScheduler false schedulerNewErr cc).map NewSchedulerResult.ccAfter =
      some (Complete cc) ∧
    NewScheduler true schedulerNewErr { cc with eventClient := none } =
      none := by
  cases probeOk <;> cases schedulerNewErr <;> exact ⟨rfl, rfl, rfl⟩

/-- C6: the recorder factory is selected by the single discovery probe: on
probe success (with a present event client) every recorder is the modern
broadcaster-backed one forwarding to the events sink; on probe failure every
recorder is a legacy core-recorder wrapped in the compatibility adapter, and
construction still succeeds. -/
theorem C6_probe_selects_recorder_factory (cc : Config) (ec : Nat)
    (component : String) :
    (getRecorderFactory true { cc with eventClient := some ec }).map
        (fun p => p.1 component) =
      some (EventRecorder.modern (Broadcaster.eventsNew ec) component) ∧
    (getRecorderFactory false cc).map (fun p => p.1 component) =
      some (EventRecorder.adapter cc.coreBroadcaster component) ∧
    buildsHandle (NewScheduler false none cc) = true :=
  ⟨rfl, rfl, rfl⟩

/-- C7: on every execution that reaches the external constructor (any probe
outcome with a present event client, or a failed probe with any
configuration) and on which that constructor fails, `NewScheduler` returns
exactly the underlying error value, unwrapped, and no handle. -/
theorem C7_construction_error_propagated (probeOk : Bool) (cc : Config)
    (e : String) (ec : Nat) :
    (NewScheduler probeOk (some e) { cc with eventClient := some ec }).map
      NewSchedulerResult.result = some (Except.error e) ∧
    (NewScheduler false (some e) cc).map NewSchedulerResult.result =
      some (Except.error e) := by
  cases probeOk <;> exact ⟨rfl, rfl⟩

/-- C8: `Run` starts event recording exactly when both the broadcaster and
the event client are present in the handle's configuration, and in every case
it proceeds to launch the pod informer. -/
theorem C8_recording_iff_both_present (sched : Scheduler) (env : RunEnv) :
    (Action.startRecordingToSink ∈ (Scheduler.Run sched env).trace ↔
      (sched.Config.broadcaster.isSome = true ∧
       sched.Config.eventClient.isSome = true)) ∧
    Action.goPodInformerRun ∈ (Scheduler.Run sched env).trace := by
  obtain ⟨t, htr, hts⟩ := run_trace_shape sched env
  rw [htr]
  constructor
  · by_cases hb : (sched.Config.broadcaster.isSome &&
      sched.Config.eventClient.isSome) = true
    · rw [Bool.and_eq_true] at hb
      simp [hb.1, hb.2]
    · have hbf : (sched.Config.broadcaster.isSome &&
          sched.Config.eventClient.isSome) = false := by
        revert hb
        cases sched.Config.broadcaster.isSome &&
          sched.Config.eventClient.isSome <;> simp
      rcases hts with h | h | h <;> subst h <;>
        · simp [hbf]
          intro h1
          rw [h1] at hbf
          simp_all
  · simp

/-- C9: both informer drivers — the pod-informer task and the aggregate
factory start — are launched before the wait-for-sync phase begins: in every
trace they appear, in order, immediately before the factory cache wait, and
no wait or stop-receive action precedes them. -/
theorem C9_informers_launched_before_wait (sched : Scheduler) (env : RunEnv) :
    ∃ pre t : List Action,
      (Scheduler.Run sched env).trace =
        pre ++ ([Action.goPodInformerRun, Action.informerFactoryStart,
          Action.informerFactoryWaitForCacheSync] ++ t) ∧
      Action.informerFactoryWaitForCacheSync ∉ pre ∧
      Action.cacheWaitForCacheSync ∉ pre ∧
      Action.recvStopCh ∉ pre := by
  obtain ⟨t, htr, _⟩ := run_trace_shape sched env
  refine ⟨_, t, htr, ?_, ?_, ?_⟩ <;> split <;> simp

/-- C10: whenever the external constructor is reached, the out-of-tree
plugin registry handed to it is freshly created and empty — `NewScheduler`
registers nothing in it. -/
theorem C10_out_of_tree_registry_empty (probeOk : Bool)
    (schedulerNewErr : Option String) (cc : Config) (ec : Nat) :
    (NewScheduler probeOk schedulerNewErr
        { cc with eventClient := some ec }).map
      (fun r => r.args.outOfTreeRegistry) = some [] ∧
    (NewScheduler false schedulerNewErr cc).map
      (fun r => r.args.outOfTreeRegistry) = some [] := by
  cases probeOk <;> cases schedulerNewErr <;> exact ⟨rfl, rfl⟩

end Multischeduler
